import Mathlib

/-!
# WorkExchange client — authentication / request layer, shallow embedding

Shallow embedding of the credential store, request gateway, session guard
and auth facade of the WorkExchange client (src/js/api.js and
src/js/auth-guard.js).  JavaScript values flowing through the request
handler are modelled by an inductive JSON value type; `localStorage` and
`window.location` are modelled by an explicit browser state record that
the operations thread through.  JS truthiness and string coercion are
modelled explicitly where the source relies on them (`if (token)`,
`data.message || data.error || ...`).
-/

/-- JSON values, as produced by `response.json()` / consumed by
`JSON.stringify`.  Numbers are modelled as integers (no claim involves
non-integral numerics). -/
inductive JsonValue where
  | null : JsonValue
  | bool (b : Bool) : JsonValue
  | num (n : Int) : JsonValue
  | str (s : String) : JsonValue
  | arr (xs : List JsonValue) : JsonValue
  | obj (fields : List (String × JsonValue)) : JsonValue

/-- Property lookup `v.k` on a JS value: defined on objects (first binding
wins, as in a parsed JSON object), `undefined` (here `none`) otherwise. -/
def getField : JsonValue → String → Option JsonValue
  | JsonValue.obj fields, k => (fields.find? (fun p => p.1 == k)).map (fun p => p.2)
  | _, _ => none

/-- JS truthiness of a possibly-undefined value: `undefined`, `null`,
`false`, `0` and `""` are falsy; every other value (any object or array
included) is truthy. -/
def jsTruthy : Option JsonValue → Bool
  | none => false
  | some JsonValue.null => false
  | some (JsonValue.bool b) => b
  | some (JsonValue.num n) => n != 0
  | some (JsonValue.str s) => s != ""
  | some (JsonValue.arr _) => true
  | some (JsonValue.obj _) => true

/-- JS truthiness of `localStorage.getItem(k)`: `null` and the empty
string are falsy. -/
def jsTruthyStr : Option String → Bool
  | none => false
  | some s => s != ""

mutual
/-- JS `String(v)` coercion, as applied by `new Error(v)` and
`localStorage.setItem`. -/
def jsToString : JsonValue → String
  | JsonValue.null => "null"
  | JsonValue.bool b => cond b "true" "false"
  | JsonValue.num n => toString n
  | JsonValue.str s => s
  | JsonValue.arr xs => jsArrToString xs
  | JsonValue.obj _ => "[object Object]"

/-- Array coercion: elements joined by commas. -/
def jsArrToString : List JsonValue → String
  | [] => ""
  | [v] => jsItemToString v
  | v :: vs => jsItemToString v ++ "," ++ jsArrToString vs

/-- One array element under `String(...)`: `null` renders empty. -/
def jsItemToString : JsonValue → String
  | JsonValue.null => ""
  | JsonValue.bool b => cond b "true" "false"
  | JsonValue.num n => toString n
  | JsonValue.str s => s
  | JsonValue.arr xs => jsArrToString xs
  | JsonValue.obj _ => "[object Object]"
end

/-- Escape a string for JSON encoding (quote and backslash). -/
def jsonEscape (s : String) : String :=
  s.toList.foldr
    (fun c acc =>
      (if c = '\"' then "\\\"" else if c = '\\' then "\\\\" else String.singleton c) ++ acc)
    ""

mutual
/-- `JSON.stringify`, as used by `setCurrentUser` to persist the cached
profile. -/
def stringify : JsonValue → String
  | JsonValue.null => "null"
  | JsonValue.bool b => cond b "true" "false"
  | JsonValue.num n => toString n
  | JsonValue.str s => "\"" ++ jsonEscape s ++ "\""
  | JsonValue.arr xs => "[" ++ stringifyList xs ++ "]"
  | JsonValue.obj fs => "\x7b" ++ stringifyFields fs ++ "\x7d"

/-- Serialize array elements, comma separated. -/
def stringifyList : List JsonValue → String
  | [] => ""
  | [v] => stringify v
  | v :: vs => stringify v ++ "," ++ stringifyList vs

/-- Serialize object fields, comma separated. -/
def stringifyFields : List (String × JsonValue) → String
  | [] => ""
  | [(k, v)] => "\"" ++ jsonEscape k ++ "\":" ++ stringify v
  | (k, v) :: fs => "\"" ++ jsonEscape k ++ "\":" ++ stringify v ++ "," ++ stringifyFields fs
end

/-- Browser-visible state threaded through the operations: the three
`localStorage` entries the scripts touch (`token`, `auth_token`,
`current_user`), the current `window.location.pathname`, and the pending
navigation (`window.location.href` assignment), `none` when no redirect
has been triggered. -/
structure BrowserState where
  token : Option String
  auth_token : Option String
  current_user : Option String
  pathname : String
  redirect : Option String
deriving Repr, DecidableEq

/-- An HTTP response as observed by the request handler: status code,
`content-type` header (absent when the server sent none), the value
`response.json()` parses to, and the raw `response.text()`. -/
structure Response where
  status : Nat
  contentType : Option String
  jsonBody : JsonValue
  textBody : String

/-- `response.ok`: status in the inclusive range 200–299. -/
def respOk (r : Response) : Bool :=
  200 ≤ r.status && r.status < 300

/-- `haystack.includes(needle)` on strings: the needle occurs as a
contiguous run of characters. -/
def strIncludes (haystack needle : String) : Bool :=
  (List.range (haystack.toList.length + 1)).any
    (fun i => List.isPrefixOf needle.toList (haystack.toList.drop i))

/-- `contentType && contentType.includes('application/json')`
(src/js/api.js line 54). -/
def declaresJson (r : Response) : Bool :=
  match r.contentType with
  | some ct => strIncludes ct "application/json"
  | none => false

/-- Response parsing (src/js/api.js lines 52–59): parse as JSON when the
response declares a JSON content type, otherwise wrap the raw text as
`{ message: text }`. -/
def parseBody (r : Response) : JsonValue :=
  if declaresJson r then r.jsonBody
  else JsonValue.obj [("message", JsonValue.str r.textBody)]

/-- The error message selected by
`new Error(data.message || data.error || \x60HTTP error! status: ${response.status}\x60)`
(src/js/api.js line 69), JS truthiness and string coercion included. -/
def errMessage (data : JsonValue) (status : Nat) : String :=
  if jsTruthy (getField data "message") then
    jsToString ((getField data "message").getD JsonValue.null)
  else if jsTruthy (getField data "error") then
    jsToString ((getField data "error").getD JsonValue.null)
  else
    "HTTP error! status: " ++ toString status

/-- Header construction in `request` (src/js/api.js lines 37–44): start
from `Content-Type: application/json`, spread in the caller's headers
(later assignment overwrites), then set `Authorization: Bearer <token>`
when a token is present. -/
def setHeader (hs : List (String × String)) (k v : String) : List (String × String) :=
  if hs.any (fun p => p.1 == k) then
    hs.map (fun p => if p.1 == k then (k, v) else p)
  else hs ++ [(k, v)]

/-- The headers `request` sends, given the current store and the caller's
extra headers. -/
def buildHeaders (st : BrowserState) (extra : List (String × String)) : List (String × String) :=
  let base := extra.foldl (fun hs p => setHeader hs p.1 p.2)
    [("Content-Type", "application/json")]
  if jsTruthyStr st.auth_token then
    setHeader base "Authorization" ("Bearer " ++ st.auth_token.getD "")
  else base

/-- The core request handler `apiService.request` (src/js/api.js lines
34–76), from the moment the response is available: parse the body; on a
non-ok status, additionally on 401 remove `auth_token` and
`current_user` and, unless the pathname is exactly `/login.html` or
`/register.html`, assign `window.location.href = '/pages/login.html'`;
then throw the selected error message.  On an ok status return the
parsed body.  The `catch` block rethrows unchanged. -/
def request (st : BrowserState) (resp : Response) :
    Except String JsonValue × BrowserState :=
  let data := parseBody resp
  if respOk resp then (Except.ok data, st)
  else
    let st1 :=
      if resp.status == 401 then
        let stc := { st with auth_token := none, current_user := none }
        if st.pathname != "/login.html" && st.pathname != "/register.html" then
          { stc with redirect := some "/pages/login.html" }
        else stc
      else st
    (Except.error (errMessage data resp.status), st1)

/-- `apiService.auth.login` (src/js/api.js lines 94–104): delegate to
`request`; on success, if the response carries a truthy `token`, store it
(string-coerced) under `auth_token`, and if it carries a truthy `user`,
persist it JSON-encoded under `current_user`; return the response. -/
def authLogin (st : BrowserState) (resp : Response) :
    Except String JsonValue × BrowserState :=
  match request st resp with
  | (Except.error e, st1) => (Except.error e, st1)
  | (Except.ok response, st1) =>
      let st2 :=
        if jsTruthy (getField response "token") then
          let st3 := { st1 with
            auth_token := some (jsToString ((getField response "token").getD JsonValue.null)) }
          if jsTruthy (getField response "user") then
            { st3 with
              current_user := some (stringify ((getField response "user").getD JsonValue.null)) }
          else st3
        else st1
      (Except.ok response, st2)

/-- `apiService.auth.register` (src/js/api.js lines 82–92): identical
post-processing to login. -/
def authRegister (st : BrowserState) (resp : Response) :
    Except String JsonValue × BrowserState :=
  match request st resp with
  | (Except.error e, st1) => (Except.error e, st1)
  | (Except.ok response, st1) =>
      let st2 :=
        if jsTruthy (getField response "token") then
          let st3 := { st1 with
            auth_token := some (jsToString ((getField response "token").getD JsonValue.null)) }
          if jsTruthy (getField response "user") then
            { st3 with
              current_user := some (stringify ((getField response "user").getD JsonValue.null)) }
          else st3
        else st1
      (Except.ok response, st2)

/-- Observable side effects of a synchronous operation. -/
inductive Effect where
  | removeItem (key : String) : Effect
  | setItem (key value : String) : Effect
  | redirect (url : String) : Effect
  | fetch (url : String) : Effect
deriving Repr, DecidableEq

/-- How each effect acts on the browser state.  A `fetch` effect does not
alter local state by itself. -/
def applyEffect (st : BrowserState) : Effect → BrowserState
  | Effect.removeItem k =>
      if k = "token" then { st with token := none }
      else if k = "auth_token" then { st with auth_token := none }
      else if k = "current_user" then { st with current_user := none }
      else st
  | Effect.setItem k v =>
      if k = "token" then { st with token := some v }
      else if k = "auth_token" then { st with auth_token := some v }
      else if k = "current_user" then { st with current_user := some v }
      else st
  | Effect.redirect u => { st with redirect := some u }
  | Effect.fetch _ => st

/-- The exact effect sequence of `apiService.auth.logout` (src/js/api.js
lines 117–121): `removeToken()`, `removeCurrentUser()`, then
`window.location.href = '/pages/login.html'`. -/
def logoutEffects : List Effect :=
  [Effect.removeItem "auth_token", Effect.removeItem "current_user",
   Effect.redirect "/pages/login.html"]

/-- `apiService.auth.logout`, as the synchronous application of its
effect sequence. -/
def logout (st : BrowserState) : BrowserState :=
  logoutEffects.foldl applyEffect st

/-- Whether an effect is a network call. -/
def isFetch : Effect → Bool
  | Effect.fetch _ => true
  | _ => false

/-- The public allow-list of src/js/auth-guard.js line 20. -/
def publicPages : List String :=
  ["/login.html", "/register.html", "/index.html", "/"]

/-- JS `s.endsWith(search)`: `search` is a suffix of `s`. -/
def jsEndsWith (s search : String) : Bool :=
  List.isPrefixOf search.toList.reverse s.toList.reverse

/-- `publicPages.some(page => currentPath.endsWith(page) || currentPath === page)`
(src/js/auth-guard.js line 21). -/
def isPublicPage (currentPath : String) : Bool :=
  publicPages.any (fun page => jsEndsWith currentPath page || currentPath == page)

/-- Outcome of the guard IIFE: either it assigns
`window.location.href` and throws (halting the page's scripts), or it
lets execution proceed. -/
inductive GuardResult where
  | halt (redirectTo : String) : GuardResult
  | proceed : GuardResult
deriving Repr, DecidableEq

/-- The auth-guard IIFE (src/js/auth-guard.js lines 11–32): reads
`localStorage.getItem('token')` and the current pathname; when the token
is falsy and the page is not public it redirects to `/pages/login.html`
and throws; otherwise the page continues loading. -/
def authGuard (token : Option String) (currentPath : String) : GuardResult :=
  if !(jsTruthyStr token) && !(isPublicPage currentPath) then
    GuardResult.halt "/pages/login.html"
  else GuardResult.proceed

/-! ## Theorems -/

/-- C1: for every request whose response has status 401, after `request`
completes the credential is absent (both the token entry and the cached
user profile are removed) and the operation rejects; the caller never
receives a success result from a 401 response. -/
theorem c1_unauthorized_clears_credential_and_rejects
    (st : BrowserState) (resp : Response) (h : resp.status = 401) :
    (request st resp).2.auth_token = none ∧
    (request st resp).2.current_user = none ∧
    ∃ e, (request st resp).1 = Except.error e := by
  have hok : respOk resp = false := by simp [respOk, h]
  unfold request
  rw [hok, h]
  simp only [Bool.false_eq_true, if_false]
  refine ⟨?_, ?_, ⟨_, rfl⟩⟩ <;>
  · split
    · split <;> rfl
    · next hne => exact absurd rfl hne

/-- C1 witness: a concrete 401 response against a state holding a token
and a cached profile. -/
theorem c1_witness :
    ({ status := 401, contentType := some "application/json",
       jsonBody := JsonValue.obj [("message", JsonValue.str "Unauthorized")],
       textBody := "" } : Response).status = 401 ∧
    ((request
        { token := none, auth_token := some "tok", current_user := some "u",
          pathname := "/pages/dashboard.html", redirect := none }
        { status := 401, contentType := some "application/json",
          jsonBody := JsonValue.obj [("message", JsonValue.str "Unauthorized")],
          textBody := "" }).2.auth_token = none ∧
     (request
        { token := none, auth_token := some "tok", current_user := some "u",
          pathname := "/pages/dashboard.html", redirect := none }
        { status := 401, contentType := some "application/json",
          jsonBody := JsonValue.obj [("message", JsonValue.str "Unauthorized")],
          textBody := "" }).1 =
       Except.error "Unauthorized") :=
  ⟨rfl,
   (c1_unauthorized_clears_credential_and_rejects _ _ rfl).1,
   rfl⟩

/-- C2: for every page path not matched by the public allow-list, when
the credential is absent the guard redirects to the login page and halts
script execution on the page. -/
theorem c2_guard_redirects_when_unauthenticated
    (p : String) (h : isPublicPage p = false) :
    authGuard none p = GuardResult.halt "/pages/login.html" := by
  simp [authGuard, jsTruthyStr, h]

/-- C2 witness: the dashboard path is not public, and the guard halts
with a redirect there when no token is stored. -/
theorem c2_witness :
    isPublicPage "/pages/dashboard.html" = false ∧
    authGuard none "/pages/dashboard.html" = GuardResult.halt "/pages/login.html" :=
  ⟨by decide, c2_guard_redirects_when_unauthenticated _ (by decide)⟩

/-- C6: every path in the public allow-list passes the guard, whatever
the stored token is: the guard never redirects there. -/
theorem c6_public_pages_never_redirect
    (p : String) (hp : p ∈ publicPages) (tok : Option String) :
    authGuard tok p = GuardResult.proceed := by
  have hpub : isPublicPage p = true := by
    unfold isPublicPage
    rw [List.any_eq_true]
    exact ⟨p, hp, by simp⟩
  simp [authGuard, hpub]

/-- C6 witness: the site root and the login page pass the guard both
with and without a credential. -/
theorem c6_witness :
    authGuard none "/" = GuardResult.proceed ∧
    authGuard (some "tok") "/" = GuardResult.proceed ∧
    authGuard none "/login.html" = GuardResult.proceed :=
  ⟨c6_public_pages_never_redirect "/" (by decide) none,
   c6_public_pages_never_redirect "/" (by decide) (some "tok"),
   c6_public_pages_never_redirect "/login.html" (by decide) none⟩

/-- C7: every non-2xx response other than 401 makes `request` reject,
and leaves the whole browser state — in particular the stored token and
the cached user profile — exactly as it was. -/
theorem c7_other_errors_preserve_state
    (st : BrowserState) (resp : Response)
    (hok : respOk resp = false) (h401 : resp.status ≠ 401) :
    (∃ e, (request st resp).1 = Except.error e) ∧
    (request st resp).2 = st := by
  have h : (resp.status == 401) = false := by
    simp [Nat.beq_eq_true_eq, h401]
  unfold request
  rw [hok, h]
  simp

/-- C7 witness: a concrete 500 response leaves the state untouched and
rejects. -/
theorem c7_witness :
    (request
       { token := none, auth_token := some "tok", current_user := some "u",
         pathname := "/pages/dashboard.html", redirect := none }
       { status := 500, contentType := some "application/json",
         jsonBody := JsonValue.obj [("error", JsonValue.str "oops")],
         textBody := "" }).2 =
      { token := none, auth_token := some "tok", current_user := some "u",
        pathname := "/pages/dashboard.html", redirect := none } :=
  (c7_other_errors_preserve_state _ _ (by decide) (by decide)).2

/-- C9: logout is local-only: it removes the token entry and the cached
profile, sets the redirect to the login page, and its effect sequence
contains no network call — so it succeeds regardless of server
reachability. -/
theorem c9_logout_local_only (st : BrowserState) :
    (logout st).auth_token = none ∧
    (logout st).current_user = none ∧
    (logout st).redirect = some "/pages/login.html" ∧
    logoutEffects.all (fun e => !(isFetch e)) = true := by
  refine ⟨rfl, rfl, rfl, rfl⟩

/-- C10: because the allow-list entry `/` is tested with a suffix match,
every path ending in `/` is classified public, so the guard lets
execution continue there even with no credential stored. -/
theorem c10_trailing_slash_paths_are_public
    (p : String) (h : jsEndsWith p "/" = true) (tok : Option String) :
    authGuard tok p = GuardResult.proceed := by
  have hpub : isPublicPage p = true := by
    simp [isPublicPage, publicPages, h]
  simp [authGuard, hpub]

/-- C10 witness: the directory-style path `/pages/` passes the guard
with no credential. -/
theorem c10_witness :
    jsEndsWith "/pages/" "/" = true ∧
    authGuard none "/pages/" = GuardResult.proceed :=
  ⟨by decide, c10_trailing_slash_paths_are_public "/pages/" (by decide) none⟩

/-- C3: for every 2xx response, `request` returns the parsed JSON body
unchanged when the response declares a JSON content type (so a server
echo of the request body deep-equals the original object), and otherwise
returns the raw text wrapped as `{ message: text }`. -/
theorem c3_success_returns_parsed_body
    (st : BrowserState) (resp : Response) (hok : respOk resp = true) :
    (declaresJson resp = true → (request st resp).1 = Except.ok resp.jsonBody) ∧
    (declaresJson resp = false → (request st resp).1 =
      Except.ok (JsonValue.obj [("message", JsonValue.str resp.textBody)])) := by
  constructor <;> intro hj <;> simp [request, parseBody, hok, hj]

/-- C3 witness: a JSON echo comes back verbatim, and a plain-text pong
comes back wrapped in a message object. -/
theorem c3_witness :
    (request
       { token := none, auth_token := some "tok", current_user := none,
         pathname := "/pages/dashboard.html", redirect := none }
       { status := 200, contentType := some "application/json; charset=utf-8",
         jsonBody := JsonValue.obj
           [("title", JsonValue.str "Fix bug"),
            ("description", JsonValue.str "Found in homepage"),
            ("coins", JsonValue.num 5)],
         textBody := "" }).1 =
      Except.ok (JsonValue.obj
        [("title", JsonValue.str "Fix bug"),
         ("description", JsonValue.str "Found in homepage"),
         ("coins", JsonValue.num 5)]) ∧
    (request
       { token := none, auth_token := some "tok", current_user := none,
         pathname := "/pages/dashboard.html", redirect := none }
       { status := 204, contentType := some "text/plain",
         jsonBody := JsonValue.null, textBody := "pong" }).1 =
      Except.ok (JsonValue.obj [("message", JsonValue.str "pong")]) :=
  ⟨(c3_success_returns_parsed_body _ _ (by decide)).1 (by decide),
   (c3_success_returns_parsed_body _ _ (by decide)).2 (by decide)⟩

/-- C4 counterexample: the site root `/` is in the public allow-list,
yet `request` still performs the redirect on a 401 response there — the
skip covers only the exact pathnames `/login.html` and
`/register.html`, not every public page. -/
theorem c4_counterexample :
    isPublicPage "/" = true ∧
    (request
       { token := none, auth_token := some "tok", current_user := none,
         pathname := "/", redirect := none }
       { status := 401, contentType := some "application/json",
         jsonBody := JsonValue.obj [], textBody := "" }).2.redirect =
      some "/pages/login.html" :=
  ⟨by decide, rfl⟩

/-- C4 amended: on every 401 response, the redirect to the login page is
performed exactly when the current pathname differs from both
`/login.html` and `/register.html`; on those two exact pathnames the
pending navigation is left unchanged.  (Other public pages, the site
root included, still get the redirect.) -/
theorem c4_amended_redirect_rule
    (st : BrowserState) (resp : Response) (h : resp.status = 401) :
    ((st.pathname ≠ "/login.html" ∧ st.pathname ≠ "/register.html") →
       (request st resp).2.redirect = some "/pages/login.html") ∧
    ((st.pathname = "/login.html" ∨ st.pathname = "/register.html") →
       (request st resp).2.redirect = st.redirect) := by
  have hok : respOk resp = false := by simp [respOk, h]
  constructor
  · intro hcond
    have hb : (st.pathname != "/login.html" && st.pathname != "/register.html") = true := by
      simp [bne_iff_ne, hcond.1, hcond.2]
    unfold request
    rw [hok, h]
    simp [hb]
  · intro hcond
    have hb : (st.pathname != "/login.html" && st.pathname != "/register.html") = false := by
      rcases hcond with hc | hc <;> simp [hc]
    unfold request
    rw [hok, h]
    simp [hb]

/-- C4 amended witness: a 401 on a protected task page redirects, a 401
on the exact login pathname does not. -/
theorem c4_witness :
    (request
       { token := none, auth_token := none, current_user := none,
         pathname := "/pages/tasks.html", redirect := none }
       { status := 401, contentType := some "application/json",
         jsonBody := JsonValue.obj [], textBody := "" }).2.redirect =
      some "/pages/login.html" ∧
    (request
       { token := none, auth_token := none, current_user := none,
         pathname := "/login.html", redirect := none }
       { status := 401, contentType := some "application/json",
         jsonBody := JsonValue.obj [], textBody := "" }).2.redirect = none :=
  ⟨(c4_amended_redirect_rule _ _ rfl).1 ⟨by decide, by decide⟩,
   (c4_amended_redirect_rule _ _ rfl).2 (Or.inl rfl)⟩

/-- Post-processing of `auth.login` (src/js/api.js lines 94–104): on a
2xx JSON response carrying a non-empty string `token`, the response is
returned unchanged, the token is persisted, a carried truthy `user` is
cached JSON-encoded, and the next request built from the resulting state
sends the stored credential as a bearer authorization header. -/
theorem authLogin_stores_credential
    (st : BrowserState) (resp : Response) (t : String)
    (hok : respOk resp = true) (hjson : declaresJson resp = true)
    (htok : getField resp.jsonBody "token" = some (JsonValue.str t))
    (ht : t ≠ "") :
    (authLogin st resp).1 = Except.ok resp.jsonBody ∧
    (authLogin st resp).2.auth_token = some t ∧
    (∀ u, getField resp.jsonBody "user" = some u → jsTruthy (some u) = true →
       (authLogin st resp).2.current_user = some (stringify u)) ∧
    ("Authorization", "Bearer " ++ t) ∈ buildHeaders (authLogin st resp).2 [] := by
  have hreq : request st resp = (Except.ok resp.jsonBody, st) := by
    simp [request, parseBody, hok, hjson]
  have htr2 : jsTruthy (some (JsonValue.str t)) = true := by
    simp [jsTruthy, ht]
  have hat : (authLogin st resp).2.auth_token = some t := by
    simp only [authLogin, hreq]
    split
    · split <;> simp [htok, jsToString]
    · next hfalse =>
        rw [htok] at hfalse
        exact absurd htr2 hfalse
  refine ⟨?_, hat, ?_, ?_⟩
  · simp [authLogin, hreq]
  · intro u hu hut
    simp only [authLogin, hreq]
    split
    · split
      · simp [hu]
      · next hfalse =>
          rw [hu] at hfalse
          exact absurd hut hfalse
    · next hfalse =>
        rw [htok] at hfalse
        exact absurd htr2 hfalse
  · simp [buildHeaders, hat, jsTruthyStr, ht, setHeader]

/-- C5: for every successful login and every successful registration
whose 2xx JSON response carries a (non-empty) token, the operation
stores that token (and caches the carried user profile), returns the
response unchanged, and a following request built from the new state
carries the stored credential in its authorization header. -/
theorem c5_login_register_persist_token
    (st : BrowserState) (resp : Response) (t : String)
    (hok : respOk resp = true) (hjson : declaresJson resp = true)
    (htok : getField resp.jsonBody "token" = some (JsonValue.str t))
    (ht : t ≠ "") :
    ((authLogin st resp).1 = Except.ok resp.jsonBody ∧
     (authLogin st resp).2.auth_token = some t ∧
     (∀ u, getField resp.jsonBody "user" = some u → jsTruthy (some u) = true →
        (authLogin st resp).2.current_user = some (stringify u)) ∧
     ("Authorization", "Bearer " ++ t) ∈ buildHeaders (authLogin st resp).2 []) ∧
    ((authRegister st resp).1 = Except.ok resp.jsonBody ∧
     (authRegister st resp).2.auth_token = some t ∧
     (∀ u, getField resp.jsonBody "user" = some u → jsTruthy (some u) = true →
        (authRegister st resp).2.current_user = some (stringify u)) ∧
     ("Authorization", "Bearer " ++ t) ∈ buildHeaders (authRegister st resp).2 []) := by
  have e : authRegister st resp = authLogin st resp := rfl
  rw [e]
  exact ⟨authLogin_stores_credential st resp t hok hjson htok ht,
         authLogin_stores_credential st resp t hok hjson htok ht⟩

/-- C5 witness: a concrete login response carrying a token and a user:
both entries are stored, and the following request carries the bearer
header. -/
theorem c5_witness :
    (authLogin
       { token := none, auth_token := none, current_user := none,
         pathname := "/login.html", redirect := none }
       { status := 200, contentType := some "application/json",
         jsonBody := JsonValue.obj
           [("token", JsonValue.str "tok123"),
            ("user", JsonValue.obj [("name", JsonValue.str "Maviya")])],
         textBody := "" }).2.auth_token = some "tok123" ∧
    (authLogin
       { token := none, auth_token := none, current_user := none,
         pathname := "/login.html", redirect := none }
       { status := 200, contentType := some "application/json",
         jsonBody := JsonValue.obj
           [("token", JsonValue.str "tok123"),
            ("user", JsonValue.obj [("name", JsonValue.str "Maviya")])],
         textBody := "" }).2.current_user =
      some (stringify (JsonValue.obj [("name", JsonValue.str "Maviya")])) ∧
    ("Authorization", "Bearer tok123") ∈
      buildHeaders
        (authLogin
          { token := none, auth_token := none, current_user := none,
            pathname := "/login.html", redirect := none }
          { status := 200, contentType := some "application/json",
            jsonBody := JsonValue.obj
              [("token", JsonValue.str "tok123"),
               ("user", JsonValue.obj [("name", JsonValue.str "Maviya")])],
            textBody := "" }).2 [] ∧
    (authRegister
       { token := none, auth_token := none, current_user := none,
         pathname := "/register.html", redirect := none }
       { status := 201, contentType := some "application/json",
         jsonBody := JsonValue.obj [("token", JsonValue.str "tokR")],
         textBody := "" }).2.auth_token = some "tokR" := by
  have h1 := c5_login_register_persist_token
    { token := none, auth_token := none, current_user := none,
      pathname := "/login.html", redirect := none }
    { status := 200, contentType := some "application/json",
      jsonBody := JsonValue.obj
        [("token", JsonValue.str "tok123"),
         ("user", JsonValue.obj [("name", JsonValue.str "Maviya")])],
      textBody := "" }
    "tok123" (by decide) (by decide) rfl (by decide)
  have h2 := c5_login_register_persist_token
    { token := none, auth_token := none, current_user := none,
      pathname := "/register.html", redirect := none }
    { status := 201, contentType := some "application/json",
      jsonBody := JsonValue.obj [("token", JsonValue.str "tokR")],
      textBody := "" }
    "tokR" (by decide) (by decide) rfl (by decide)
  exact ⟨h1.1.2.1,
         h1.1.2.2.1 (JsonValue.obj [("name", JsonValue.str "Maviya")]) rfl rfl,
         h1.1.2.2.2,
         h2.2.2.1⟩

/-- C8 counterexample: with body `{"message": "", "error": "boom"}` the
`message` field is present yet the raised message is "boom" (JS
truthiness skips the empty string), and with body `{"msg": "boom"}` the
`msg` field is never consulted — the generic text is raised instead. -/
theorem c8_counterexample :
    (request
       { token := none, auth_token := some "tok", current_user := none,
         pathname := "/pages/dashboard.html", redirect := none }
       { status := 500, contentType := some "application/json",
         jsonBody := JsonValue.obj
           [("message", JsonValue.str ""), ("error", JsonValue.str "boom")],
         textBody := "" }).1 = Except.error "boom" ∧
    ¬ (request
       { token := none, auth_token := some "tok", current_user := none,
         pathname := "/pages/dashboard.html", redirect := none }
       { status := 500, contentType := some "application/json",
         jsonBody := JsonValue.obj
           [("message", JsonValue.str ""), ("error", JsonValue.str "boom")],
         textBody := "" }).1 = Except.error "" ∧
    (request
       { token := none, auth_token := some "tok", current_user := none,
         pathname := "/pages/dashboard.html", redirect := none }
       { status := 500, contentType := some "application/json",
         jsonBody := JsonValue.obj [("msg", JsonValue.str "boom")],
         textBody := "" }).1 = Except.error "HTTP error! status: 500" ∧
    ¬ (request
       { token := none, auth_token := some "tok", current_user := none,
         pathname := "/pages/dashboard.html", redirect := none }
       { status := 500, contentType := some "application/json",
         jsonBody := JsonValue.obj [("msg", JsonValue.str "boom")],
         textBody := "" }).1 = Except.error "boom" := by
  refine ⟨rfl, ?_, rfl, ?_⟩
  · intro hx
    have hs : "boom" = "" := by injection hx
    exact absurd hs (by decide)
  · intro hx
    have hs : "HTTP error! status: 500" = "boom" := by injection hx
    exact absurd hs (by decide)

/-- C8 amended: for every non-2xx response the raised message is the
parsed body's `message` field when that field is truthy (in particular
non-empty), else its `error` field when truthy, else the generic
`HTTP error! status: N` text carrying the status code; the `msg` field
is never consulted. -/
theorem c8_amended_message_selection
    (st : BrowserState) (resp : Response) (hok : respOk resp = false) :
    (request st resp).1 = Except.error
      (if jsTruthy (getField (parseBody resp) "message") then
        jsToString ((getField (parseBody resp) "message").getD JsonValue.null)
      else if jsTruthy (getField (parseBody resp) "error") then
        jsToString ((getField (parseBody resp) "error").getD JsonValue.null)
      else "HTTP error! status: " ++ toString resp.status) := by
  unfold request
  rw [hok]
  simp only [Bool.false_eq_true, if_false]
  rfl

/-- C8 amended witness: a 404 plain-text response raises its wrapped
text as the message. -/
theorem c8_amended_witness :
    (request
       { token := none, auth_token := some "tok", current_user := none,
         pathname := "/pages/dashboard.html", redirect := none }
       { status := 404, contentType := none,
         jsonBody := JsonValue.null, textBody := "Not Found" }).1 =
      Except.error "Not Found" :=
  c8_amended_message_selection _ _ (by decide)
